import Mathlib

/-!
Verification of the identity-resolution and lifecycle core of the
intelligent-face-tracker repository.

The Lean definitions below are a shallow embedding of the Python source:
  * `cosine_similarity`, `find_best_match`, `should_store_embedding`
    embed `src/database.py` (`DatabaseManager.cosine_similarity`,
    `find_best_match`, `should_store_embedding`);
  * `update_trackers`, `assignDetections`, `handleExits`, `registerFace`
    embed `src/tracker.py` (`FaceTracker`);
  * `findSpatialMatch`, `resolveDetection`, `processDetection` embed the
    per-detection identity-resolution block of `src/main.py`
    (`process_video`, lines 150-238).

Numeric values (numpy floats) are modelled as real numbers; Python ints as
`Int`.  Database calls are modelled as pure state plus an explicit event
trace (`DbEvent`): each persistence call the code makes appends one event,
in program order.  Fallible persistence writes take an explicit `Bool`
outcome parameter (`registerOk`, `insertOk`) that plays the role of
"did `insert_one` raise?"; the control flow that reacts to the outcome is
translated from the try/except structure of the source.
-/

namespace FaceTracker

/-- Appearance vector (numpy array modelled as a list of reals). -/
abbrev Vec := List ℝ

/-- Sum of squares of the entries, `sum(x*x for x in a)`. -/
def sumSq (a : Vec) : ℝ := a.foldl (fun s x => s + x * x) 0

/-- `np.linalg.norm(a)`: Euclidean norm. -/
noncomputable def vnorm (a : Vec) : ℝ := Real.sqrt (sumSq a)

/-- `np.dot(a, b)` over the common length. -/
def dot (a b : Vec) : ℝ := (a.zip b).foldl (fun s p => s + p.1 * p.2) 0

/-- `DatabaseManager.cosine_similarity` (src/database.py lines 72-76; the
identical helper in src/utils.py lines 46-54): if either vector has zero
norm return `0.0`, otherwise `dot / (norm a * norm b)`. -/
noncomputable def cosine_similarity (a b : Vec) : ℝ :=
  if vnorm a = 0 ∨ vnorm b = 0 then 0
  else dot a b / (vnorm a * vnorm b)

/-- One iteration of the `find_best_match` loop (src/database.py lines
84-91): the accumulator is `(best_id, best_sim, second_best_sim)`. -/
noncomputable def bmStep (newEmbedding : Vec) (acc : Option String × ℝ × ℝ)
    (pe : String × Vec) : Option String × ℝ × ℝ :=
  let sim := cosine_similarity newEmbedding pe.2
  if sim > acc.2.1 then (some pe.1, sim, acc.2.1)
  else if sim > acc.2.2 then (acc.1, acc.2.1, sim)
  else acc

/-- `find_best_match` (src/database.py lines 78-93): fold over the known
(person-id, embedding) pairs keeping `(best_id, best_sim, second_best_sim)`,
starting from `(None, -1, -1)`. -/
noncomputable def find_best_match (newEmbedding : Vec)
    (knownEmbeddings : List (String × Vec)) : Option String × ℝ × ℝ :=
  knownEmbeddings.foldl (bmStep newEmbedding) (none, -1, -1)

/-- The persisted `face_data` collection, modelled as a list of
(person_id, face_vector) rows already sorted by `created_time` descending
(most recent first), which is the order `should_store_embedding` queries. -/
abbrev FaceData := List (String × Vec)

/-- The `find(...).sort("created_time", -1).limit(10)` query of
`should_store_embedding`: the person's 10 most recent stored vectors. -/
def recentEmbeddings (faceData : FaceData) (personId : String) : List Vec :=
  ((faceData.filter (fun r => r.1 == personId)).take 10).map (·.2)

/-- `DatabaseManager.should_store_embedding` (src/database.py lines
95-124), non-error path: retain unconditionally when the person has no
stored embeddings; otherwise fold `max_sim = max(max_sim, sim)` starting
from `0` over the 10 most recent vectors and retain iff
`max_sim < embedding_diversity_threshold`. -/
noncomputable def should_store_embedding (divThresh : ℝ) (faceData : FaceData)
    (personId : String) (newEmbedding : Vec) : Bool :=
  let existing := recentEmbeddings faceData personId
  if existing.isEmpty then true
  else
    let maxSim := existing.foldl
      (fun m v => max m (cosine_similarity newEmbedding v)) 0
    decide (maxSim < divThresh)

/-- Bounding box `(x, y, w, h)` with Python-int coordinates. -/
structure Box where
  x : ℤ
  y : ℤ
  w : ℤ
  h : ℤ
deriving DecidableEq, Repr

/-- `x + w / 2`, the float x-coordinate of a box centre. -/
noncomputable def centerX (b : Box) : ℝ := (b.x : ℝ) + (b.w : ℝ) / 2

/-- `y + h / 2`, the float y-coordinate of a box centre. -/
noncomputable def centerY (b : Box) : ℝ := (b.y : ℝ) + (b.h : ℝ) / 2

/-- `((cx1 - cx2) ** 2 + (cy1 - cy2) ** 2) ** 0.5`: Euclidean distance
between centres, as computed in src/main.py lines 180-181 and
src/tracker.py lines 61-62. -/
noncomputable def centerDist (a b : Box) : ℝ :=
  Real.sqrt ((centerX a - centerX b) ^ 2 + (centerY a - centerY b) ^ 2)

/-- One entry of `FaceTracker.tracked_people` (src/tracker.py
`register_face`, lines 109-122).  The dict is modelled as a list in
insertion order; its keys are the `personId` fields.  Crops are opaque
tokens (`ℕ`); the ISO timestamp string `last_seen_time` carries no logic
and is omitted. -/
structure TrackedPerson where
  personId : String
  bbox : Option Box
  lastKnownBbox : Option Box
  lastSeenFrame : ℤ
  lastCrop : Option ℕ
  conf : ℝ

/-- One persistence call, in program order.  The `Bool` on fallible
writes records whether the underlying `insert_one` succeeded. -/
inductive DbEvent where
  | findBestMatch (emb : Vec)
  | registerPerson (personId : String) (emb : Vec) (ok : Bool)
  | saveVisit (personId : String) (action : String)
  | shouldStore (personId : String) (emb : Vec) (result : Bool)
  | insertFaceData (personId : String) (emb : Vec) (ok : Bool)
  | updateLastSeen (personId : String)

/-- `True` on the `save_visit_record(pid, "exit", ...)` event for `pid`. -/
def isExitRecordFor (pid : String) : DbEvent → Bool
  | .saveVisit q a => q == pid && a == "exit"
  | _ => false

/-- `True` on the `save_visit_record(pid, "entry", ...)` event for `pid`. -/
def isEntryRecordFor (pid : String) : DbEvent → Bool
  | .saveVisit q a => q == pid && a == "entry"
  | _ => false

/-- `True` on the gallery best-match query event (`find_best_match`). -/
def isBestMatchQuery : DbEvent → Bool
  | .findBestMatch _ => true
  | _ => false

/-- `True` on the diversity-filter offer event (`should_store_embedding`). -/
def isRetentionOffer : DbEvent → Bool
  | .shouldStore _ _ _ => true
  | _ => false

/-- `FaceTracker.register_face` (src/tracker.py lines 109-122): dict
assignment `tracked_people[person_id] = {...}` — replace in place when the
key exists, append otherwise. -/
def registerFace (tracked : List TrackedPerson) (personId : String)
    (b : Box) (crop : ℕ) (conf : ℝ) (frameNum : ℤ) : List TrackedPerson :=
  let entry : TrackedPerson :=
    { personId := personId, bbox := some b, lastKnownBbox := some b,
      lastSeenFrame := frameNum, lastCrop := some crop, conf := conf }
  if tracked.any (fun p => p.personId == personId) then
    tracked.map (fun p => if p.personId == personId then entry else p)
  else
    tracked ++ [entry]

/-- A detection `(x, y, w, h, conf)` from the face detector. -/
structure Detection where
  box : Box
  conf : ℝ

/-- The inner loop of `_assign_detections_to_tracks` (src/tracker.py lines
46-67): the index of the closest not-yet-assigned detection within 100 px
of `lastB`, folded in list order keeping `(best_match_idx, best_distance)`
(`none` plays the role of `best_match_idx = -1` / `best_distance = inf`). -/
noncomputable def bestCandidate (lastB : Box) (dets : List Detection)
    (assigned : List ℕ) : Option ℕ :=
  (dets.enum.foldl
    (fun best (i, d) =>
      if i ∈ assigned then best
      else
        let distance := centerDist lastB d.box
        if distance < 100 ∧ (∀ bd ∈ best.map Prod.snd, distance < bd) then
          some (i, distance)
        else best)
    none).map Prod.fst

/-- `FaceTracker._assign_detections_to_tracks` (src/tracker.py lines
34-77): greedy per-track in iteration order, threading the set of already
assigned detection indices. -/
noncomputable def assignDetections (tracked : List TrackedPerson)
    (dets : List Detection) (frameNum : ℤ) : List TrackedPerson :=
  (tracked.foldl
    (fun (acc : List TrackedPerson × List ℕ) p =>
      match p.lastKnownBbox with
      | none => (acc.1 ++ [p], acc.2)
      | some lastB =>
        match bestCandidate lastB dets acc.2 with
        | none => (acc.1 ++ [p], acc.2)
        | some i =>
          match dets.get? i with
          | none => (acc.1 ++ [p], acc.2)
          | some d =>
            let upd := { p with bbox := some d.box, lastKnownBbox := some d.box, lastSeenFrame := frameNum, conf := d.conf }
            (acc.1 ++ [upd], acc.2 ++ [i]))
    ([], [])).1

/-- `FaceTracker.update_trackers` (src/tracker.py lines 15-32): first set
`bbox = None` for every tracked person, then either assign detections to
tracks, or — when the detection list is falsy (None or empty, both
modelled as `[]`) — run the refresh loop, which is guarded by
`if pdata.get("bbox")` and therefore acts on the just-cleared boxes.
Returns the new tracked list and the `update_last_seen` calls made. -/
noncomputable def update_trackers (tracked : List TrackedPerson)
    (frameNum : ℤ) (currentDetections : List Detection) :
    List TrackedPerson × List DbEvent :=
  let cleared := tracked.map (fun p => { p with bbox := none })
  if currentDetections.isEmpty then
    (cleared.map (fun p =>
        if p.bbox.isSome then { p with lastSeenFrame := frameNum } else p),
     cleared.filterMap (fun p =>
        if p.bbox.isSome then some (DbEvent.updateLastSeen p.personId)
        else none))
  else
    (assignDetections cleared currentDetections frameNum, [])

/-- The exit test of `handle_exits`:
`current_frame_num - last_seen > exit_thresh`. -/
def exitDue (currentFrameNum exitThresh : ℤ) (p : TrackedPerson) : Bool :=
  decide (currentFrameNum - p.lastSeenFrame > exitThresh)

/-- `FaceTracker.handle_exits` (src/tracker.py lines 79-107): emit one
exit visit record for every tracked person whose absence strictly exceeds
the threshold, then remove exactly those entries.  Returns the remaining
tracked list and the emitted records. -/
def handleExits (tracked : List TrackedPerson)
    (currentFrameNum exitThresh : ℤ) :
    List TrackedPerson × List DbEvent :=
  let toRemove := tracked.filter (exitDue currentFrameNum exitThresh)
  (tracked.filter (fun p => !(exitDue currentFrameNum exitThresh p)),
   toRemove.map (fun p => DbEvent.saveVisit p.personId "exit"))

/-- Python truthiness of `best_id` in `if best_sim >= sim_thresh and
best_id:` — `None` and the empty string are falsy. -/
def truthyId : Option String → Bool
  | none => false
  | some s => !(s.isEmpty)

/-- The position-based carry-over scan of src/main.py lines 169-186: walk
`tracker.tracked_people` in order; for each person whose *current-frame*
`bbox` is present (truthy), compute the centre distance to the detection
and stop at the first one strictly within 50 px. -/
noncomputable def findSpatialMatch (tracked : List TrackedPerson)
    (det : Box) : Option String :=
  match tracked with
  | [] => none
  | p :: rest =>
    match p.bbox with
    | some b =>
      if centerDist b det < 50 then some p.personId
      else findSpatialMatch rest det
    | none => findSpatialMatch rest det

/-- Result of resolving one detection: the state of `known_embeddings`
and `tracked_people` after the block, the assigned identity, the
new-person flag, and the persistence calls in program order. -/
structure ResolveResult where
  assignedId : String
  isNewPerson : Bool
  known : List (String × Vec)
  tracked : List TrackedPerson
  events : List DbEvent

/-- The per-detection identity-resolution block of `process_video`
(src/main.py lines 169-238), for a detection that survived the
confidence/crop/embedding gates.  `nextId` is the identifier
`get_next_person_id()` would mint; `registerOk` / `insertOk` are the
outcomes of the two fallible `insert_one` persistence writes
(`register_person` swallows its exception internally, so the block
continues identically either way; the retention insert's exception is
caught *after* the `known_embeddings.append`, which is therefore skipped
on failure). -/
noncomputable def resolveDetection (simThresh divThresh : ℝ)
    (tracked : List TrackedPerson) (known : List (String × Vec))
    (faceData : FaceData) (det : Box) (conf : ℝ) (emb : Vec)
    (nextId : String) (registerOk insertOk : Bool) (frameNum : ℤ)
    (crop : ℕ) : ResolveResult :=
  -- lines 169-211: position match, else embedding match, else register new
  let step1 :=
    match findSpatialMatch tracked det with
    | some pid => (pid, false, known, ([] : List DbEvent))
    | none =>
      let bm := find_best_match emb known
      if bm.2.1 ≥ simThresh ∧ truthyId bm.1 then
        ((bm.1).getD "", false, known, [DbEvent.findBestMatch emb])
      else
        (nextId, true, known ++ [(nextId, emb)],
         [DbEvent.findBestMatch emb,
          DbEvent.registerPerson nextId emb registerOk])
  let assignedId := step1.1
  let isNewPerson := step1.2.1
  let known1 := step1.2.2.1
  let events1 := step1.2.2.2
  -- lines 213-221: entry record when the id is not currently tracked
  let entryEvents :=
    if assignedId ∈ tracked.map (·.personId) then ([] : List DbEvent)
    else [DbEvent.saveVisit assignedId "entry"]
  -- lines 223-234: diversity-gated retention (only when not new); the
  -- in-memory append sits after the insert inside the same try block
  let step2 :=
    if isNewPerson then (known1, ([] : List DbEvent))
    else
      let s := should_store_embedding divThresh faceData assignedId emb
      if s then
        (if insertOk then known1 ++ [(assignedId, emb)] else known1,
         [DbEvent.shouldStore assignedId emb s,
          DbEvent.insertFaceData assignedId emb insertOk])
      else (known1, [DbEvent.shouldStore assignedId emb s])
  -- lines 236-238: update last seen, register for tracking
  { assignedId := assignedId,
    isNewPerson := isNewPerson,
    known := step2.1,
    tracked := registerFace tracked assignedId det crop conf frameNum,
    events := events1 ++ entryEvents ++ step2.2 ++
      [DbEvent.updateLastSeen assignedId] }

/-- The gates of src/main.py lines 151-167 in front of `resolveDetection`:
skip the detection when `conf < conf_thresh`, when the padded crop is
empty, or when no embedding could be extracted. -/
noncomputable def processDetection (simThresh divThresh confThresh : ℝ)
    (tracked : List TrackedPerson) (known : List (String × Vec))
    (faceData : FaceData) (det : Box) (conf : ℝ) (cropEmpty : Bool)
    (embOpt : Option Vec) (nextId : String) (registerOk insertOk : Bool)
    (frameNum : ℤ) (crop : ℕ) : Option ResolveResult :=
  if conf < confThresh then none
  else if cropEmpty then none
  else
    match embOpt with
    | none => none
    | some emb =>
      some (resolveDetection simThresh divThresh tracked known faceData
        det conf emb nextId registerOk insertOk frameNum crop)

/-! ## Helper lemmas -/

/-- The square-root distance comparison used by both radius checks. -/
lemma centerDist_lt_iff (a b : Box) {r : ℝ} (hr : 0 < r) :
    centerDist a b < r ↔
      (centerX a - centerX b) ^ 2 + (centerY a - centerY b) ^ 2 < r ^ 2 := by
  unfold centerDist
  exact Real.sqrt_lt' hr

/-- Zero-norm guard, right argument (shared by several witnesses). -/
lemma cosine_similarity_of_norm_right (a b : Vec) (hb : vnorm b = 0) :
    cosine_similarity a b = 0 := by
  rw [cosine_similarity, if_pos (Or.inr hb)]

/-- `vnorm [0] = 0`, used to build concrete zero-similarity inputs. -/
lemma vnorm_zero_singleton : vnorm [(0 : ℝ)] = 0 := by
  simp [vnorm, sumSq]

/-- The `find_best_match` loop preserves `second_best_sim ≤ best_sim`. -/
lemma bmStep_foldl_sorted (emb : Vec) :
    ∀ (l : List (String × Vec)) (acc : Option String × ℝ × ℝ),
      acc.2.2 ≤ acc.2.1 →
      (l.foldl (bmStep emb) acc).2.2 ≤ (l.foldl (bmStep emb) acc).2.1 := by
  intro l
  induction l with
  | nil => intro acc h; simpa using h
  | cons pe l ih =>
    intro acc h
    rw [List.foldl_cons]
    apply ih
    unfold bmStep
    by_cases h1 : cosine_similarity emb pe.2 > acc.2.1
    · simp only [if_pos h1]
      exact le_of_lt h1
    · by_cases h2 : cosine_similarity emb pe.2 > acc.2.2
      · simp only [if_neg h1, if_pos h2]
        exact le_of_not_lt h1
      · simp only [if_neg h1, if_neg h2]
        exact h

/-- A `max`-fold is below `t` iff the seed and every folded value are. -/
lemma foldl_max_lt_iff (f : Vec → ℝ) (t : ℝ) :
    ∀ (l : List Vec) (a : ℝ),
      l.foldl (fun m v => max m (f v)) a < t ↔
        a < t ∧ ∀ v ∈ l, f v < t := by
  intro l
  induction l with
  | nil => intro a; simp
  | cons v l ih =>
    intro a
    simp only [List.foldl_cons, ih, max_lt_iff, List.mem_cons]
    constructor
    · rintro ⟨⟨h1, h2⟩, h3⟩
      exact ⟨h1, fun w hw => hw.elim (fun he => he ▸ h2) (h3 w)⟩
    · rintro ⟨h1, h2⟩
      exact ⟨⟨h1, h2 v (Or.inl rfl)⟩, fun w hw => h2 w (Or.inr hw)⟩

/-! ## C7 — cosine similarity zero-norm guard -/

/-- C7: for every pair of vectors where at least one has zero norm, cosine
similarity returns exactly 0; otherwise it returns
`dot a b / (vnorm a * vnorm b)` and the divisor is nonzero, so the
division-by-zero case is unreachable. -/
theorem cosine_zero_norm_spec (a b : Vec) :
    ((vnorm a = 0 ∨ vnorm b = 0) → cosine_similarity a b = 0) ∧
    (vnorm a ≠ 0 → vnorm b ≠ 0 →
      cosine_similarity a b = dot a b / (vnorm a * vnorm b) ∧
      vnorm a * vnorm b ≠ 0) := by
  constructor
  · intro h
    rw [cosine_similarity, if_pos h]
  · intro ha hb
    have hcond : ¬(vnorm a = 0 ∨ vnorm b = 0) := by
      rintro (h | h)
      · exact ha h
      · exact hb h
    constructor
    · rw [cosine_similarity, if_neg hcond]
    · exact mul_ne_zero ha hb

/-- Witness for C7 at the zero vector `[0]` against `[3]`. -/
theorem cosine_zero_norm_witness : cosine_similarity [(0 : ℝ)] [(3 : ℝ)] = 0 := by
  have h0 : vnorm [(0 : ℝ)] = 0 := by
    simp [vnorm, sumSq]
  exact (cosine_zero_norm_spec [(0 : ℝ)] [(3 : ℝ)]).1 (Or.inl h0)

/-! ## C10 — best-match ordering and empty-gallery result -/

/-- C10: `find_best_match` always reports `best_sim ≥ second_best_sim`,
and on an empty gallery returns `(None, -1, -1)` (no match, best
similarity below any non-negative threshold) instead of failing. -/
theorem best_match_order_spec (emb : Vec) (known : List (String × Vec)) :
    (find_best_match emb known).2.2 ≤ (find_best_match emb known).2.1 ∧
    find_best_match emb [] = (none, -1, -1) := by
  constructor
  · unfold find_best_match
    exact bmStep_foldl_sorted emb known (none, -1, -1) (by norm_num)
  · rfl

/-! ## C6 — diversity-gated retention -/

/-- C6: `should_store_embedding` retains unconditionally when the person
has no stored embeddings; when the diversity threshold is positive (the
code seeds its running maximum with `0`, so thresholds `≤ 0` would behave
differently, but the configured threshold — default `0.85` — is positive)
it retains iff every one of the person's 10 most recent embeddings has
similarity strictly below the threshold, i.e. iff the maximum similarity
is strictly below it; and it never retains when some recent embedding has
similarity ≥ the threshold. -/
theorem diversity_retention_spec (divThresh : ℝ) (faceData : FaceData)
    (personId : String) (emb : Vec) (ht : 0 < divThresh) :
    (recentEmbeddings faceData personId = [] →
      should_store_embedding divThresh faceData personId emb = true) ∧
    (should_store_embedding divThresh faceData personId emb = true ↔
      ∀ v ∈ recentEmbeddings faceData personId,
        cosine_similarity emb v < divThresh) ∧
    (∀ v ∈ recentEmbeddings faceData personId,
      divThresh ≤ cosine_similarity emb v →
      should_store_embedding divThresh faceData personId emb = false) := by
  have hmax : ∀ (l : List Vec),
      (l.foldl (fun m v => max m (cosine_similarity emb v)) 0 < divThresh ↔
        ∀ v ∈ l, cosine_similarity emb v < divThresh) := by
    intro l
    rw [foldl_max_lt_iff]
    exact and_iff_right ht
  by_cases hempty : recentEmbeddings faceData personId = []
  · refine ⟨fun _ => ?_, ?_, ?_⟩
    · rw [should_store_embedding, hempty]
      rfl
    · rw [should_store_embedding, hempty]
      simp
    · intro v hv
      rw [hempty] at hv
      exact absurd hv (List.not_mem_nil v)
  · have hne : (recentEmbeddings faceData personId).isEmpty = false :=
      List.isEmpty_eq_false.mpr hempty
    have hval : should_store_embedding divThresh faceData personId emb =
        decide ((recentEmbeddings faceData personId).foldl
          (fun m v => max m (cosine_similarity emb v)) 0 < divThresh) := by
      rw [should_store_embedding, hne]
      simp
    refine ⟨fun h => absurd h hempty, ?_, ?_⟩
    · rw [hval, decide_eq_true_iff]
      exact hmax _
    · intro v hv hsim
      rw [hval, decide_eq_false_iff_not]
      intro hlt
      exact absurd ((hmax _).mp hlt v hv) (not_lt.mpr hsim)

/-- Witness for C6: with threshold `0.85`, one stored embedding `[0]`
(zero norm, so similarity `0`) and candidate `[1]`, retention is granted. -/
theorem diversity_retention_witness :
    0 < (0.85 : ℝ) ∧
    should_store_embedding 0.85 [("p", [(0 : ℝ)])] "p" [(1 : ℝ)] = true := by
  have ht : (0 : ℝ) < 0.85 := by norm_num
  refine ⟨ht, ?_⟩
  have h := (diversity_retention_spec 0.85 [("p", [(0 : ℝ)])] "p"
    [(1 : ℝ)] ht).2.1
  rw [h]
  intro v hv
  have hrec : recentEmbeddings [("p", [(0 : ℝ)])] "p" = [[(0 : ℝ)]] := by
    simp [recentEmbeddings]
  rw [hrec] at hv
  have hv0 : v = [(0 : ℝ)] := List.mem_singleton.mp hv
  rw [hv0, cosine_similarity_of_norm_right _ _ vnorm_zero_singleton]
  norm_num

/-! ## C3 — no-detections branch of `update_trackers` -/

/-- C3 (code evaluation): calling `update_trackers` with no detections
makes **no** `update_last_seen` call and refreshes **no**
`last_seen_frame`: the refresh loop is guarded by `if pdata.get("bbox")`,
but every `bbox` was just cleared to `None` at the top of the function, so
the branch is dead code.  The resulting state is exactly the input state
with every current-frame box cleared (positions — `lastKnownBbox` — are
untouched). -/
theorem no_detection_refresh_dead_code (tracked : List TrackedPerson)
    (frameNum : ℤ) :
    (update_trackers tracked frameNum []).2 = [] ∧
    (update_trackers tracked frameNum []).1 =
      tracked.map (fun p => { p with bbox := none }) := by
  constructor
  · simp [update_trackers]
  · simp [update_trackers]

/-! ## Helper lemmas for `handleExits` -/

/-- Exit records never mention a person id absent from the list. -/
lemma countP_personId_zero (l : List TrackedPerson) (pid : String)
    (f : TrackedPerson → Bool)
    (hnot : pid ∉ l.map TrackedPerson.personId) :
    l.countP (fun q => q.personId == pid && f q) = 0 := by
  induction l with
  | nil => rfl
  | cons q l ih =>
    rw [List.countP_cons]
    have hq : q.personId ≠ pid := by
      intro h
      exact hnot (by simp [h])
    have hl : pid ∉ l.map TrackedPerson.personId := by
      intro h
      exact hnot (by simp [List.mem_cons]; right; simpa using h)
    simp only [beq_eq_false_iff_ne.mpr hq, Bool.false_and]
    simpa using ih hl

/-- How many exit records `handleExits` emits for one tracked person:
one if their absence exceeds the threshold, zero otherwise. -/
lemma handleExits_countP (tracked : List TrackedPerson) (F T : ℤ)
    (hnd : (tracked.map TrackedPerson.personId).Nodup)
    (p : TrackedPerson) (hp : p ∈ tracked) :
    (handleExits tracked F T).2.countP (isExitRecordFor p.personId) =
      if T < F - p.lastSeenFrame then 1 else 0 := by
  have hrec : (handleExits tracked F T).2.countP (isExitRecordFor p.personId)
      = tracked.countP
        (fun q => q.personId == p.personId && exitDue F T q) := by
    rw [handleExits]
    simp only [List.countP_map, List.countP_filter]
    congr 1
    funext q
    simp [isExitRecordFor, Function.comp]
  rw [hrec]
  clear hrec
  induction tracked with
  | nil => exact absurd hp (List.not_mem_nil p)
  | cons q l ih =>
    rw [List.countP_cons]
    rcases List.mem_cons.mp hp with heq | hmem
    · subst heq
      have hnot : p.personId ∉ l.map TrackedPerson.personId := by
        have := hnd
        rw [List.map_cons, List.nodup_cons] at this
        exact this.1
      rw [countP_personId_zero l p.personId _ hnot]
      simp [exitDue]
    · have hq : q.personId ≠ p.personId := by
        intro h
        rw [List.map_cons, List.nodup_cons] at hnd
        exact hnd.1 (h ▸ List.mem_map_of_mem TrackedPerson.personId hmem)
      have hnd2 : (l.map TrackedPerson.personId).Nodup := by
        rw [List.map_cons, List.nodup_cons] at hnd
        exact hnd.2
      rw [ih hnd2 hmem]
      simp [beq_eq_false_iff_ne.mpr hq]

/-- Membership in the tracked set surviving `handleExits`. -/
lemma handleExits_mem (tracked : List TrackedPerson) (F T : ℤ)
    (p : TrackedPerson) :
    p ∈ (handleExits tracked F T).1 ↔
      p ∈ tracked ∧ ¬(T < F - p.lastSeenFrame) := by
  rw [handleExits]
  simp [List.mem_filter, exitDue]

/-! ## C5 — exit threshold semantics -/

/-- C5: for every call to the exit check with current frame `F` and
threshold `T`, exactly the tracked persons with `F − lastSeenFrame > T`
emit one exit record each and are removed; a person with
`F − lastSeenFrame ≤ T` emits no exit record and remains tracked. -/
theorem exit_threshold_spec (tracked : List TrackedPerson) (F T : ℤ)
    (hnd : (tracked.map TrackedPerson.personId).Nodup)
    (p : TrackedPerson) (hp : p ∈ tracked) :
    (T < F - p.lastSeenFrame →
      (handleExits tracked F T).2.countP (isExitRecordFor p.personId) = 1 ∧
      p ∉ (handleExits tracked F T).1) ∧
    (F - p.lastSeenFrame ≤ T →
      (handleExits tracked F T).2.countP (isExitRecordFor p.personId) = 0 ∧
      p ∈ (handleExits tracked F T).1) := by
  constructor
  · intro h
    constructor
    · rw [handleExits_countP tracked F T hnd p hp, if_pos h]
    · rw [handleExits_mem]
      rintro ⟨-, hc⟩
      exact hc h
  · intro h
    constructor
    · rw [handleExits_countP tracked F T hnd p hp, if_neg (not_lt.mpr h)]
    · exact (handleExits_mem tracked F T p).mpr ⟨hp, not_lt.mpr h⟩

/-- Witness for C5: frame 10, threshold 2, person last seen at frame 3
(absence 7 > 2) — exactly one exit record, person removed. -/
theorem exit_threshold_witness :
    (handleExits [⟨"p", none, none, 3, none, (0 : ℝ)⟩] 10 2).2.countP
      (isExitRecordFor "p") = 1 ∧
    (⟨"p", none, none, 3, none, (0 : ℝ)⟩ : TrackedPerson) ∉
      (handleExits [⟨"p", none, none, 3, none, (0 : ℝ)⟩] 10 2).1 :=
  (exit_threshold_spec [⟨"p", none, none, 3, none, (0 : ℝ)⟩] 10 2
    (by simp) ⟨"p", none, none, 3, none, (0 : ℝ)⟩ (by simp)).1
    (by norm_num)

/-! ## C4 — end-of-stream flush with threshold 0 -/

/-- C4 fails on the code: with `exitThreshold = 0` the strict comparison
`current_frame − last_seen > 0` spares every person whose
`last_seen_frame` equals the current frame, so a person matched in the
final frame emits no exit record and the tracked set is *not* left
empty. -/
theorem final_flush_counterexample :
    (handleExits [⟨"person1", none, none, 5, none, (0 : ℝ)⟩] 5 0).1 =
      [⟨"person1", none, none, 5, none, (0 : ℝ)⟩] ∧
    (handleExits [⟨"person1", none, none, 5, none, (0 : ℝ)⟩] 5 0).2 = [] := by
  constructor <;> rfl

/-- C4 as amended: the end-of-stream call `handleExits F 0` exits exactly
the still-tracked persons with `lastSeenFrame < F` (one exit record each,
removed from the set); a person matched in the final frame
(`lastSeenFrame = F`, hence `F ≤ lastSeenFrame`) emits no exit record and
remains tracked, so the tracked set need not reconcile to empty. -/
theorem final_flush_amended (tracked : List TrackedPerson) (F : ℤ)
    (hnd : (tracked.map TrackedPerson.personId).Nodup)
    (p : TrackedPerson) (hp : p ∈ tracked) :
    (p.lastSeenFrame < F →
      (handleExits tracked F 0).2.countP (isExitRecordFor p.personId) = 1 ∧
      p ∉ (handleExits tracked F 0).1) ∧
    (F ≤ p.lastSeenFrame →
      (handleExits tracked F 0).2.countP (isExitRecordFor p.personId) = 0 ∧
      p ∈ (handleExits tracked F 0).1) := by
  constructor
  · intro h
    refine (And.intro ?_ ?_)
    · rw [handleExits_countP tracked F 0 hnd p hp, if_pos (by omega)]
    · rw [handleExits_mem]
      rintro ⟨-, hc⟩
      exact hc (by omega)
  · intro h
    refine (And.intro ?_ ?_)
    · rw [handleExits_countP tracked F 0 hnd p hp, if_neg (by omega)]
    · exact (handleExits_mem tracked F 0 p).mpr ⟨hp, by omega⟩

/-- Witness for the amended C4: person last seen at frame 4, final frame
9 — the flush emits one exit record and removes them. -/
theorem final_flush_witness :
    (handleExits [⟨"q", none, none, 4, none, (0 : ℝ)⟩] 9 0).2.countP
      (isExitRecordFor "q") = 1 ∧
    (⟨"q", none, none, 4, none, (0 : ℝ)⟩ : TrackedPerson) ∉
      (handleExits [⟨"q", none, none, 4, none, (0 : ℝ)⟩] 9 0).1 :=
  (final_flush_amended [⟨"q", none, none, 4, none, (0 : ℝ)⟩] 9
    (by simp) ⟨"q", none, none, 4, none, (0 : ℝ)⟩ (by simp)).1
    (by norm_num)

/-! ## Helper lemmas for the carry-over scan -/

/-- The carry-over scan returns the *first* tracked person (in iteration
order) whose current-frame box is present and whose centre is strictly
within 50 px of the detection centre. -/
lemma findSpatialMatch_first (pre : List TrackedPerson) (p : TrackedPerson)
    (post : List TrackedPerson) (det : Box) (b : Box)
    (hpre : ∀ q ∈ pre, ∀ qb, q.bbox = some qb → ¬(centerDist qb det < 50))
    (hb : p.bbox = some b) (hd : centerDist b det < 50) :
    findSpatialMatch (pre ++ p :: post) det = some p.personId := by
  induction pre with
  | nil =>
    rw [List.nil_append]
    simp [findSpatialMatch, hb, hd]
  | cons q pre ih =>
    have hrest : ∀ r ∈ pre, ∀ rb, r.bbox = some rb →
        ¬(centerDist rb det < 50) :=
      fun r hr => hpre r (List.mem_cons_of_mem q hr)
    rw [List.cons_append]
    cases hqb : q.bbox with
    | none =>
      simpa [findSpatialMatch, hqb] using ih hrest
    | some qb =>
      have hnq : ¬(centerDist qb det < 50) :=
        hpre q (List.mem_cons_self q pre) qb hqb
      simpa [findSpatialMatch, hqb, hnq] using ih hrest

/-! ## C1 — spatial carry-over precedence -/

/-- C1 fails on the code: the carry-over scan of src/main.py lines
169-186 compares against the *current-frame* `bbox` and stops at the
*first* hit in dict order, not against every tracked person's last-known
centre.  Concretely, the detection below (centre `(30, 0)`) is 0 px from
tracked person `"B"`'s last-known centre, yet resolution assigns `"A"`,
whose current box centre `(0, 0)` is 30 px away but is scanned first. -/
theorem spatial_precedence_counterexample :
    centerDist ⟨25, -5, 10, 10⟩ ⟨25, -5, 10, 10⟩ < 50 ∧
    (resolveDetection (1/2) (17/20)
      [⟨"A", some ⟨-5, -5, 10, 10⟩, some ⟨-5, -5, 10, 10⟩, 1, none, (9/10 : ℝ)⟩,
       ⟨"B", some ⟨25, -5, 10, 10⟩, some ⟨25, -5, 10, 10⟩, 1, none, (9/10 : ℝ)⟩]
      [] [] ⟨25, -5, 10, 10⟩ (9/10) [(1 : ℝ)] "person9" true true 2
      0).assignedId = "A" ∧
    ("A" : String) ≠ "B" := by
  refine ⟨?_, ?_, by decide⟩
  · exact (centerDist_lt_iff _ _ (by norm_num)).mpr
      (by norm_num [centerX, centerY])
  · have hA : centerDist ⟨-5, -5, 10, 10⟩ ⟨25, -5, 10, 10⟩ < 50 :=
      (centerDist_lt_iff _ _ (by norm_num)).mpr
        (by norm_num [centerX, centerY])
    simp [resolveDetection, findSpatialMatch, hA]

/-- C1 as amended: for every detection processed by the identity
resolver, if some tracked person has a *current-frame* box whose centre
lies strictly within 50 px of the detection centre, the resolved identity
is the **first** such person in iteration order (and the resolution is
not a new registration); tracked people whose current-frame box is absent
are skipped by the scan even if their last-known centre is within
50 px. -/
theorem spatial_precedence_amended (simThresh divThresh : ℝ)
    (pre post : List TrackedPerson) (p : TrackedPerson) (b : Box)
    (known : List (String × Vec)) (faceData : FaceData) (det : Box)
    (conf : ℝ) (emb : Vec) (nextId : String) (registerOk insertOk : Bool)
    (frameNum : ℤ) (crop : ℕ)
    (hpre : ∀ q ∈ pre, ∀ qb, q.bbox = some qb → ¬(centerDist qb det < 50))
    (hb : p.bbox = some b) (hd : centerDist b det < 50) :
    (resolveDetection simThresh divThresh (pre ++ p :: post) known faceData
      det conf emb nextId registerOk insertOk frameNum crop).assignedId =
      p.personId ∧
    (resolveDetection simThresh divThresh (pre ++ p :: post) known faceData
      det conf emb nextId registerOk insertOk frameNum
      crop).isNewPerson = false := by
  have hm := findSpatialMatch_first pre p post det b hpre hb hd
  constructor <;> simp [resolveDetection, hm]

/-- Witness for the amended C1: one tracked person `"A"` whose current
box coincides with the detection — resolution carries `"A"` over. -/
theorem spatial_precedence_witness :
    (resolveDetection (1/2) (17/20)
      [⟨"A", some ⟨0, 0, 10, 10⟩, some ⟨0, 0, 10, 10⟩, 1, none, (9/10 : ℝ)⟩]
      [] [] ⟨0, 0, 10, 10⟩ (9/10) [(1 : ℝ)] "person9" true true 2
      0).assignedId = "A" ∧
    (resolveDetection (1/2) (17/20)
      [⟨"A", some ⟨0, 0, 10, 10⟩, some ⟨0, 0, 10, 10⟩, 1, none, (9/10 : ℝ)⟩]
      [] [] ⟨0, 0, 10, 10⟩ (9/10) [(1 : ℝ)] "person9" true true 2
      0).isNewPerson = false :=
  spatial_precedence_amended (1/2) (17/20) [] []
    ⟨"A", some ⟨0, 0, 10, 10⟩, some ⟨0, 0, 10, 10⟩, 1, none, (9/10 : ℝ)⟩
    ⟨0, 0, 10, 10⟩ [] [] ⟨0, 0, 10, 10⟩ (9/10) [(1 : ℝ)] "person9" true
    true 2 0 (by simp) rfl
    ((centerDist_lt_iff _ _ (by norm_num)).mpr
      (by norm_num [centerX, centerY]))

/-! ## C2 — gallery effects of the three resolution paths -/

/-- C2 fails on the code: a detection resolved by the spatial carry-over
check sets `is_new_person = False`, and the retention block of
src/main.py lines 223-234 runs whenever `not is_new_person` — so the
embedding *is* offered to `should_store_embedding` (and here, with an
empty history, inserted).  Below, tracked person `"A"` is carried over
spatially, yet the event trace contains the diversity-filter offer. -/
theorem gallery_untouched_counterexample :
    findSpatialMatch
      [⟨"A", some ⟨0, 0, 8, 8⟩, some ⟨0, 0, 8, 8⟩, 1, none, (4/5 : ℝ)⟩]
      ⟨0, 0, 8, 8⟩ = some "A" ∧
    DbEvent.shouldStore "A" [(1 : ℝ)] true ∈
      (resolveDetection (1/2) (17/20)
        [⟨"A", some ⟨0, 0, 8, 8⟩, some ⟨0, 0, 8, 8⟩, 1, none, (4/5 : ℝ)⟩]
        [] [] ⟨0, 0, 8, 8⟩ (4/5) [(1 : ℝ)] "person9" true true 3
        1).events := by
  have hd : centerDist ⟨0, 0, 8, 8⟩ ⟨0, 0, 8, 8⟩ < 50 :=
    (centerDist_lt_iff _ _ (by norm_num)).mpr
      (by norm_num [centerX, centerY])
  have hm : findSpatialMatch
      [⟨"A", some ⟨0, 0, 8, 8⟩, some ⟨0, 0, 8, 8⟩, 1, none, (4/5 : ℝ)⟩]
      ⟨0, 0, 8, 8⟩ = some "A" := by
    simp [findSpatialMatch, hd]
  refine ⟨hm, ?_⟩
  have hs : should_store_embedding (17/20) [] "A" [(1 : ℝ)] = true := by
    rw [should_store_embedding]
    rfl
  simp [resolveDetection, hm, hs]

/-- C2 as amended: on a spatial carry-over resolution the gallery is not
*queried* for a best match, but the detection's embedding **is** offered
to the diversity filter; in general the embedding is offered for
retention exactly when the resolution was not a brand-new registration —
i.e. on spatial matches as well as on re-identifications. -/
theorem gallery_effects_amended (simThresh divThresh : ℝ)
    (tracked : List TrackedPerson) (known : List (String × Vec))
    (faceData : FaceData) (det : Box) (conf : ℝ) (emb : Vec)
    (nextId : String) (registerOk insertOk : Bool) (frameNum : ℤ)
    (crop : ℕ) :
    (findSpatialMatch tracked det ≠ none →
      (resolveDetection simThresh divThresh tracked known faceData det conf
        emb nextId registerOk insertOk frameNum crop).events.all
        (fun e => !(isBestMatchQuery e)) = true) ∧
    ((resolveDetection simThresh divThresh tracked known faceData det conf
        emb nextId registerOk insertOk frameNum crop).events.any
        isRetentionOffer = true ↔
      (resolveDetection simThresh divThresh tracked known faceData det conf
        emb nextId registerOk insertOk frameNum crop).isNewPerson =
        false) := by
  cases h : findSpatialMatch tracked det with
  | some pid =>
    refine ⟨fun _ => ?_, ?_⟩
    · simp only [resolveDetection, h]
      split_ifs <;> simp_all [isBestMatchQuery]
    · simp only [resolveDetection, h]
      split_ifs <;> simp_all [isRetentionOffer]
  | none =>
    refine ⟨fun hne => absurd rfl hne, ?_⟩
    by_cases hc : (find_best_match emb known).2.1 ≥ simThresh ∧
        truthyId (find_best_match emb known).1 = true
    · simp only [resolveDetection, h, if_pos hc]
      split_ifs <;> simp_all [isRetentionOffer]
    · simp only [resolveDetection, h, if_neg hc]
      split_ifs <;> simp_all [isRetentionOffer]

/-- Witness for the amended C2: the spatial carry-over input of the
counterexample — no best-match query appears in the event trace. -/
theorem gallery_effects_witness :
    (resolveDetection (1/2) (17/20)
      [⟨"A", some ⟨0, 0, 8, 8⟩, some ⟨0, 0, 8, 8⟩, 1, none, (4/5 : ℝ)⟩]
      [] [] ⟨0, 0, 8, 8⟩ (4/5) [(1 : ℝ)] "personX" true true 3
      1).events.all (fun e => !(isBestMatchQuery e)) = true := by
  have hd : centerDist ⟨0, 0, 8, 8⟩ ⟨0, 0, 8, 8⟩ < 50 :=
    (centerDist_lt_iff _ _ (by norm_num)).mpr
      (by norm_num [centerX, centerY])
  have hm : findSpatialMatch
      [⟨"A", some ⟨0, 0, 8, 8⟩, some ⟨0, 0, 8, 8⟩, 1, none, (4/5 : ℝ)⟩]
      ⟨0, 0, 8, 8⟩ ≠ none := by
    simp [findSpatialMatch, hd]
  exact (gallery_effects_amended (1/2) (17/20)
    [⟨"A", some ⟨0, 0, 8, 8⟩, some ⟨0, 0, 8, 8⟩, 1, none, (4/5 : ℝ)⟩]
    [] [] ⟨0, 0, 8, 8⟩ (4/5) [(1 : ℝ)] "personX" true true 3 1).1 hm

/-! ## C8 — first qualifying detection on an empty gallery -/

/-- C8: with an empty gallery, a qualifying detection (confidence ≥ the
detection threshold, non-empty crop, valid embedding, no spatial match)
always mints the counter's next identifier, registers the person, and
produces exactly one entry record.  (`find_best_match` on `[]` returns
`(None, -1, -1)` and `None` is falsy, so the re-identification branch is
untaken for every similarity threshold.)  The freshness hypothesis on
`nextId` reflects that counter-minted identifiers are new, hence not in
the live tracked set. -/
theorem first_detection_new_identity (simThresh divThresh confThresh : ℝ)
    (tracked : List TrackedPerson) (faceData : FaceData) (det : Box)
    (conf : ℝ) (emb : Vec) (nextId : String) (registerOk insertOk : Bool)
    (frameNum : ℤ) (crop : ℕ)
    (hconf : confThresh ≤ conf)
    (hspatial : findSpatialMatch tracked det = none)
    (hfresh : nextId ∉ tracked.map TrackedPerson.personId) :
    ∃ r, processDetection simThresh divThresh confThresh tracked [] faceData
        det conf false (some emb) nextId registerOk insertOk frameNum
        crop = some r ∧
      r.assignedId = nextId ∧
      r.isNewPerson = true ∧
      DbEvent.registerPerson nextId emb registerOk ∈ r.events ∧
      r.events.countP (isEntryRecordFor nextId) = 1 := by
  have hskip : ¬(conf < confThresh) := not_lt.mpr hconf
  refine ⟨resolveDetection simThresh divThresh tracked [] faceData det conf
    emb nextId registerOk insertOk frameNum crop, ?_, ?_, ?_, ?_, ?_⟩
  · rw [processDetection, if_neg hskip]
    rfl
  all_goals
    simp [resolveDetection, hspatial, find_best_match, truthyId, hfresh,
      isEntryRecordFor, List.countP_cons, List.countP_append]

/-- Witness for C8: empty gallery, empty tracked set, confident
detection — `"person1"` is minted with one entry record. -/
theorem first_detection_new_identity_witness :
    ∃ r, processDetection (1/2) (17/20) (3/5) [] [] [] ⟨0, 0, 8, 8⟩
        (9/10) false (some [(2 : ℝ)]) "person1" true true 1 0 = some r ∧
      r.assignedId = "person1" ∧
      r.isNewPerson = true ∧
      DbEvent.registerPerson "person1" [(2 : ℝ)] true ∈ r.events ∧
      r.events.countP (isEntryRecordFor "person1") = 1 :=
  first_detection_new_identity (1/2) (17/20) (3/5) [] [] ⟨0, 0, 8, 8⟩
    (9/10) [(2 : ℝ)] "person1" true true 1 0 (by norm_num) rfl (by simp)

/-! ## C9 — in-memory gallery vs failed persistence writes -/

/-- C9 fails on the code: `register_person` (src/database.py lines
126-144) swallows its own exception, and src/main.py line 210 appends the
embedding to `known_embeddings` unconditionally right after the call —
so a brand-new person's embedding enters the in-memory gallery even when
the persistent registration write failed (`registerOk = false` below). -/
theorem persistence_failure_counterexample :
    (resolveDetection (1/2) (17/20) [] [] [] ⟨0, 0, 8, 8⟩ (9/10)
      [(1 : ℝ)] "person1" false true 1 0).known = [("person1", [(1 : ℝ)])] ∧
    DbEvent.registerPerson "person1" [(1 : ℝ)] false ∈
      (resolveDetection (1/2) (17/20) [] [] [] ⟨0, 0, 8, 8⟩ (9/10)
        [(1 : ℝ)] "person1" false true 1 0).events := by
  constructor <;>
    simp [resolveDetection, findSpatialMatch, find_best_match, truthyId]

/-- C9 as amended: the in-memory gallery never advances past a *failed
diversity-gated embedding insert* (the append sits after the insert in
the same try block), but on the new-registration path the embedding is
appended to the in-memory gallery regardless of whether the persistent
registration write succeeded. -/
theorem persistence_failure_amended (simThresh divThresh : ℝ)
    (tracked : List TrackedPerson) (known : List (String × Vec))
    (faceData : FaceData) (det : Box) (conf : ℝ) (emb : Vec)
    (nextId : String) (registerOk insertOk : Bool) (frameNum : ℤ)
    (crop : ℕ) :
    ((resolveDetection simThresh divThresh tracked known faceData det conf
        emb nextId registerOk insertOk frameNum crop).isNewPerson = false →
      insertOk = false →
      (resolveDetection simThresh divThresh tracked known faceData det conf
        emb nextId registerOk insertOk frameNum crop).known = known) ∧
    ((resolveDetection simThresh divThresh tracked known faceData det conf
        emb nextId registerOk insertOk frameNum crop).isNewPerson = true →
      (resolveDetection simThresh divThresh tracked known faceData det conf
        emb nextId registerOk insertOk frameNum crop).known =
        known ++ [(nextId, emb)]) := by
  cases h : findSpatialMatch tracked det with
  | some pid =>
    refine ⟨fun _ hins => ?_, fun hnew => ?_⟩
    · subst hins
      simp only [resolveDetection, h]
      split_ifs <;> simp_all
    · simp only [resolveDetection, h] at hnew
      simp at hnew
  | none =>
    by_cases hc : (find_best_match emb known).2.1 ≥ simThresh ∧
        truthyId (find_best_match emb known).1 = true
    · refine ⟨fun _ hins => ?_, fun hnew => ?_⟩
      · subst hins
        simp only [resolveDetection, h, if_pos hc]
        split_ifs <;> simp_all
      · simp only [resolveDetection, h, if_pos hc] at hnew
        simp at hnew
    · refine ⟨fun hnotnew _ => ?_, fun _ => ?_⟩
      · simp only [resolveDetection, h, if_neg hc] at hnotnew
        simp at hnotnew
      · simp only [resolveDetection, h, if_neg hc]
        simp

/-- Witness for the amended C9: a spatial carry-over resolution with
`insertOk = false` — the in-memory gallery is left unchanged. -/
theorem persistence_failure_witness :
    (resolveDetection (1/2) (17/20)
      [⟨"C", some ⟨2, 2, 6, 6⟩, some ⟨2, 2, 6, 6⟩, 1, none, (4/5 : ℝ)⟩]
      [] [] ⟨2, 2, 6, 6⟩ (4/5) [(1 : ℝ)] "person7" true false 4
      2).known = [] := by
  have hd : centerDist ⟨2, 2, 6, 6⟩ ⟨2, 2, 6, 6⟩ < 50 :=
    (centerDist_lt_iff _ _ (by norm_num)).mpr
      (by norm_num [centerX, centerY])
  have hm : findSpatialMatch
      [⟨"C", some ⟨2, 2, 6, 6⟩, some ⟨2, 2, 6, 6⟩, 1, none, (4/5 : ℝ)⟩]
      ⟨2, 2, 6, 6⟩ = some "C" := by
    simp [findSpatialMatch, hd]
  exact (persistence_failure_amended (1/2) (17/20)
    [⟨"C", some ⟨2, 2, 6, 6⟩, some ⟨2, 2, 6, 6⟩, 1, none, (4/5 : ℝ)⟩]
    [] [] ⟨2, 2, 6, 6⟩ (4/5) [(1 : ℝ)] "person7" true false 4 2).1
    (by simp [resolveDetection, hm]) rfl

end FaceTracker
